import Mathlib

/-!
Verification of the Bluetooth HID bridge of `terminaleyes`
(`src/terminaleyes/raspi/hid_codes.py` and `src/terminaleyes/raspi/bt_hid.py`).

The Python modules are shallowly embedded:
  * the scan-code / modifier dictionaries become association lists over
    `String` keys, looked up with `alistLookup` (first match wins; the
    source dictionaries have pairwise-distinct keys);
  * functions that raise become `Option`- or error-carrying functions;
  * the stateful `BluetoothHidServer` becomes explicit state passing over
    a `ServerState` record, and each send operation returns the list of
    frames written to the interrupt channel together with the resulting
    state and the raised error, if any;
  * byte strings become `List Nat`, with every byte `< 256` where it
    matters; the signed-byte packing of `struct.pack` is modelled as the
    two's-complement residue `v % 256`.
Blocking I/O (socket reads/writes, `asyncio.sleep`) has no observable
effect other than the transferred bytes, so it is modelled by the lists
of frames alone; OS-level transport failures (`OSError`) are external
nondeterminism and are not modelled — every modelled write succeeds
whenever a peer socket is present.
-/

/-! ### Small string helpers

Core `String.toLower` and `String.replace` do not reduce inside the
kernel, so the embedding uses structural list-based equivalents.
Casefolding is modelled on the ASCII range, which covers every key of
the source dictionaries. -/

/-- ASCII lower-casing of one character (models Python `str.lower` on the
ASCII inputs used by the key/modifier/button tables). -/
def pyLowerChar (c : Char) : Char :=
  if 65 ≤ c.toNat ∧ c.toNat ≤ 90 then Char.ofNat (c.toNat + 32) else c

/-- ASCII lower-casing of a string. -/
def strLower (s : String) : String := String.mk (s.data.map pyLowerChar)

/-- First-match association-list lookup; models Python `dict` access for
dictionaries with pairwise-distinct keys. -/
def alistLookup {α : Type} : List (String × α) → String → Option α
  | [], _ => none
  | (k2, v) :: rest, k => if k2 = k then some v else alistLookup rest k

/-! ### `hid_codes.py`: modifier bitmasks and scan-code tables -/

def MODIFIER_NONE : Nat := 0x00

def MODIFIER_LEFT_CTRL : Nat := 0x01

def MODIFIER_LEFT_SHIFT : Nat := 0x02

def MODIFIER_LEFT_ALT : Nat := 0x04

def MODIFIER_LEFT_META : Nat := 0x08

def MODIFIER_RIGHT_CTRL : Nat := 0x10

def MODIFIER_RIGHT_SHIFT : Nat := 0x20

def MODIFIER_RIGHT_ALT : Nat := 0x40

def MODIFIER_RIGHT_META : Nat := 0x80

/-- Friendly names -> modifier bitmask (`MODIFIER_MAP`). -/
def MODIFIER_MAP : List (String × Nat) := [
  ("ctrl", MODIFIER_LEFT_CTRL),
  ("left_ctrl", MODIFIER_LEFT_CTRL),
  ("right_ctrl", MODIFIER_RIGHT_CTRL),
  ("shift", MODIFIER_LEFT_SHIFT),
  ("left_shift", MODIFIER_LEFT_SHIFT),
  ("right_shift", MODIFIER_RIGHT_SHIFT),
  ("alt", MODIFIER_LEFT_ALT),
  ("left_alt", MODIFIER_LEFT_ALT),
  ("right_alt", MODIFIER_RIGHT_ALT),
  ("meta", MODIFIER_LEFT_META),
  ("super", MODIFIER_LEFT_META),
  ("win", MODIFIER_LEFT_META),
  ("left_meta", MODIFIER_LEFT_META),
  ("right_meta", MODIFIER_RIGHT_META)]

/-- Key name -> USB HID scan code (`KEY_CODES`). -/
def KEY_CODES : List (String × Nat) := [
  ("a", 0x04), ("b", 0x05), ("c", 0x06), ("d", 0x07),
  ("e", 0x08), ("f", 0x09), ("g", 0x0A), ("h", 0x0B),
  ("i", 0x0C), ("j", 0x0D), ("k", 0x0E), ("l", 0x0F),
  ("m", 0x10), ("n", 0x11), ("o", 0x12), ("p", 0x13),
  ("q", 0x14), ("r", 0x15), ("s", 0x16), ("t", 0x17),
  ("u", 0x18), ("v", 0x19), ("w", 0x1A), ("x", 0x1B),
  ("y", 0x1C), ("z", 0x1D),
  ("1", 0x1E), ("2", 0x1F), ("3", 0x20), ("4", 0x21),
  ("5", 0x22), ("6", 0x23), ("7", 0x24), ("8", 0x25),
  ("9", 0x26), ("0", 0x27),
  ("Enter", 0x28), ("Return", 0x28),
  ("Escape", 0x29), ("Esc", 0x29),
  ("Backspace", 0x2A),
  ("Tab", 0x2B),
  ("Space", 0x2C), (" ", 0x2C),
  ("-", 0x2D), ("=", 0x2E),
  ("[", 0x2F), ("]", 0x30),
  ("\\", 0x31),
  (";", 0x33), ("\x27", 0x34),
  ("\x60", 0x35),
  (",", 0x36), (".", 0x37), ("/", 0x38),
  ("CapsLock", 0x39),
  ("F1", 0x3A), ("F2", 0x3B), ("F3", 0x3C), ("F4", 0x3D),
  ("F5", 0x3E), ("F6", 0x3F), ("F7", 0x40), ("F8", 0x41),
  ("F9", 0x42), ("F10", 0x43), ("F11", 0x44), ("F12", 0x45),
  ("PrintScreen", 0x46),
  ("ScrollLock", 0x47),
  ("Pause", 0x48),
  ("Insert", 0x49),
  ("Home", 0x4A),
  ("PageUp", 0x4B),
  ("Delete", 0x4C),
  ("End", 0x4D),
  ("PageDown", 0x4E),
  ("Right", 0x4F), ("Left", 0x50),
  ("Down", 0x51), ("Up", 0x52)]

/-- Characters that require Shift to type, US layout (`SHIFT_CHARS`). -/
def SHIFT_CHARS : List (String × String) := [
  ("!", "1"), ("@", "2"), ("#", "3"), ("$", "4"),
  ("%", "5"), ("^", "6"), ("&", "7"), ("*", "8"),
  ("(", "9"), (")", "0"), ("_", "-"), ("+", "="),
  ("\x7b", "["), ("\x7d", "]"), ("|", "\\"),
  (":", ";"), ("\x22", "\x27"), ("~", "\x60"),
  ("<", ","), (">", "."), ("?", "/"),
  ("A", "a"), ("B", "b"), ("C", "c"), ("D", "d"),
  ("E", "e"), ("F", "f"), ("G", "g"), ("H", "h"),
  ("I", "i"), ("J", "j"), ("K", "k"), ("L", "l"),
  ("M", "m"), ("N", "n"), ("O", "o"), ("P", "p"),
  ("Q", "q"), ("R", "r"), ("S", "s"), ("T", "t"),
  ("U", "u"), ("V", "v"), ("W", "w"), ("X", "x"),
  ("Y", "y"), ("Z", "z")]

/-- Python `char_to_hid(char) -> (modifier, scan_code)`; a raised `ValueError`
("No HID mapping for character") is modelled as `none`. -/
def char_to_hid (char : String) : Option (Nat × Nat) :=
  match alistLookup KEY_CODES char with
  | some code => some (MODIFIER_NONE, code)
  | none =>
    match alistLookup SHIFT_CHARS char with
    | some base_char =>
      match alistLookup KEY_CODES base_char with
      | some code => some (MODIFIER_LEFT_SHIFT, code)
      | none => none
    | none => none

/-- Python `key_name_to_hid(key) -> scan_code`: exact lookup first, then a
case-insensitive retry for single-character names; a raised `ValueError`
("Unknown key name") is modelled as `none`. -/
def key_name_to_hid (key : String) : Option Nat :=
  match alistLookup KEY_CODES key with
  | some code => some code
  | none =>
    if key.length = 1 then alistLookup KEY_CODES (strLower key) else none

/-- Accumulator loop of `modifiers_to_bitmask`: `bitmask |= MODIFIER_MAP[mod.lower()]`
over the list, aborting on the first unknown name. -/
def modifiersFold : List String → Nat → Option Nat
  | [], bitmask => some bitmask
  | m :: ms, bitmask =>
    match alistLookup MODIFIER_MAP (strLower m) with
    | none => none
    | some v => modifiersFold ms (bitmask ||| v)

/-- Python `modifiers_to_bitmask(modifiers) -> bitmask`; a raised `ValueError`
("Unknown modifier") is modelled as `none`. -/
def modifiers_to_bitmask (modifiers : List String) : Option Nat :=
  modifiersFold modifiers MODIFIER_NONE

example : char_to_hid "a" = some (MODIFIER_NONE, 0x04) := by decide
example : char_to_hid "A" = some (MODIFIER_LEFT_SHIFT, 0x04) := by decide
example : char_to_hid "!" = some (MODIFIER_LEFT_SHIFT, 0x1E) := by decide
example : key_name_to_hid "Enter" = some 0x28 := by decide
example : key_name_to_hid "enter" = none := by decide
example : modifiers_to_bitmask ["ctrl", "shift"] = some 0x03 := by decide
example : modifiers_to_bitmask ["ctrl", "banana"] = none := by decide

/-! ### `bt_hid.py`: constants, report descriptor, SDP record -/

/-- L2CAP PSM of the HID control channel. -/
def PSM_CONTROL : Nat := 0x11

/-- L2CAP PSM of the HID interrupt channel. -/
def PSM_INTERRUPT : Nat := 0x13

def REPORT_ID_KEYBOARD : Nat := 0x01

def REPORT_ID_MOUSE : Nat := 0x02

/-- Combined HID report descriptor: keyboard (report ID 1) + mouse
(report ID 2), byte for byte (`COMBO_REPORT_DESCRIPTOR`). -/
def COMBO_REPORT_DESCRIPTOR : List Nat := [
  0x05, 0x01,
  0x09, 0x06,
  0xA1, 0x01,
  0x85, REPORT_ID_KEYBOARD,
  0x05, 0x07,
  0x19, 0xE0,
  0x29, 0xE7,
  0x15, 0x00,
  0x25, 0x01,
  0x75, 0x01,
  0x95, 0x08,
  0x81, 0x02,
  0x95, 0x01,
  0x75, 0x08,
  0x81, 0x01,
  0x95, 0x06,
  0x75, 0x08,
  0x15, 0x00,
  0x25, 0x65,
  0x05, 0x07,
  0x19, 0x00,
  0x29, 0x65,
  0x81, 0x00,
  0xC0,
  0x05, 0x01,
  0x09, 0x02,
  0xA1, 0x01,
  0x85, REPORT_ID_MOUSE,
  0x09, 0x01,
  0xA1, 0x00,
  0x05, 0x09,
  0x19, 0x01,
  0x29, 0x03,
  0x15, 0x00,
  0x25, 0x01,
  0x95, 0x03,
  0x75, 0x01,
  0x81, 0x02,
  0x95, 0x01,
  0x75, 0x05,
  0x81, 0x01,
  0x05, 0x01,
  0x09, 0x30,
  0x09, 0x31,
  0x15, 0x81,
  0x25, 0x7F,
  0x75, 0x08,
  0x95, 0x02,
  0x81, 0x06,
  0x09, 0x38,
  0x15, 0x81,
  0x25, 0x7F,
  0x75, 0x08,
  0x95, 0x01,
  0x81, 0x06,
  0xC0,
  0xC0]

/-- SDP record XML template for the HID combo device (`SDP_RECORD_XML`),
with the `{report_desc_hex}` placeholder still in place. -/
def SDP_RECORD_XML : String := "<?xml version=\"1.0\" encoding=\"UTF-8\" ?>
<record>
  <attribute id=\"0x0001\"> <!-- ServiceClassIDList -->
    <sequence>
      <uuid value=\"0x1124\" /> <!-- HumanInterfaceDeviceService -->
    </sequence>
  </attribute>
  <attribute id=\"0x0004\"> <!-- ProtocolDescriptorList -->
    <sequence>
      <sequence>
        <uuid value=\"0x0100\" /> <!-- L2CAP -->
        <uint16 value=\"0x0011\" /> <!-- PSM=HID_Control -->
      </sequence>
      <sequence>
        <uuid value=\"0x0011\" /> <!-- HIDP -->
      </sequence>
    </sequence>
  </attribute>
  <attribute id=\"0x0005\"> <!-- BrowseGroupList -->
    <sequence>
      <uuid value=\"0x1002\" /> <!-- PublicBrowseRoot -->
    </sequence>
  </attribute>
  <attribute id=\"0x0006\"> <!-- LanguageBaseAttributeIDList -->
    <sequence>
      <uint16 value=\"0x656E\" /> <!-- en -->
      <uint16 value=\"0x006A\" /> <!-- UTF-8 -->
      <uint16 value=\"0x0100\" /> <!-- PrimaryLanguage -->
    </sequence>
  </attribute>
  <attribute id=\"0x0009\"> <!-- BluetoothProfileDescriptorList -->
    <sequence>
      <sequence>
        <uuid value=\"0x1124\" /> <!-- HumanInterfaceDeviceService -->
        <uint16 value=\"0x0101\" /> <!-- Version 1.1 -->
      </sequence>
    </sequence>
  </attribute>
  <attribute id=\"0x000D\"> <!-- AdditionalProtocolDescriptorList -->
    <sequence>
      <sequence>
        <sequence>
          <uuid value=\"0x0100\" /> <!-- L2CAP -->
          <uint16 value=\"0x0013\" /> <!-- PSM=HID_Interrupt -->
        </sequence>
        <sequence>
          <uuid value=\"0x0011\" /> <!-- HIDP -->
        </sequence>
      </sequence>
    </sequence>
  </attribute>
  <attribute id=\"0x0100\"> <!-- ServiceName -->
    <text value=\"TerminalEyes HID\" />
  </attribute>
  <attribute id=\"0x0101\"> <!-- ServiceDescription -->
    <text value=\"Bluetooth Keyboard + Mouse for TerminalEyes\" />
  </attribute>
  <attribute id=\"0x0102\"> <!-- ProviderName -->
    <text value=\"terminaleyes\" />
  </attribute>
  <attribute id=\"0x0200\"> <!-- HIDDeviceReleaseNumber -->
    <uint16 value=\"0x0100\" />
  </attribute>
  <attribute id=\"0x0201\"> <!-- HIDParserVersion -->
    <uint16 value=\"0x0111\" />
  </attribute>
  <attribute id=\"0x0202\"> <!-- HIDDeviceSubclass -->
    <uint8 value=\"0xC0\" /> <!-- Combo: keyboard + pointing -->
  </attribute>
  <attribute id=\"0x0203\"> <!-- HIDCountryCode -->
    <uint8 value=\"0x00\" />
  </attribute>
  <attribute id=\"0x0204\"> <!-- HIDVirtualCable -->
    <boolean value=\"true\" />
  </attribute>
  <attribute id=\"0x0205\"> <!-- HIDReconnectInitiate -->
    <boolean value=\"true\" />
  </attribute>
  <attribute id=\"0x0206\"> <!-- HIDDescriptorList -->
    <sequence>
      <sequence>
        <uint8 value=\"0x22\" /> <!-- Report Descriptor -->
        <text encoding=\"hex\" value=\"{report_desc_hex}\" />
      </sequence>
    </sequence>
  </attribute>
  <attribute id=\"0x0207\"> <!-- HIDLANGIDBaseList -->
    <sequence>
      <sequence>
        <uint16 value=\"0x0409\" /> <!-- English (US) -->
        <uint16 value=\"0x0100\" />
      </sequence>
    </sequence>
  </attribute>
  <attribute id=\"0x020B\"> <!-- HIDProfileVersion -->
    <uint16 value=\"0x0100\" />
  </attribute>
  <attribute id=\"0x020C\"> <!-- HIDSupervisionTimeout -->
    <uint16 value=\"0x0C80\" />
  </attribute>
  <attribute id=\"0x020E\"> <!-- HIDBootDevice -->
    <boolean value=\"true\" />
  </attribute>
</record>
"

/-- Lower-case hex digit, as produced by Python `bytes.hex()`. -/
def hexDigitChar (n : Nat) : Char :=
  if n < 10 then Char.ofNat (48 + n) else Char.ofNat (87 + n)

/-- Two lower-case hex digits of one byte. -/
def byteHexChars (b : Nat) : List Char := [hexDigitChar (b / 16), hexDigitChar (b % 16)]

/-- Python `bytes.hex()`: the concatenated two-digit lower-case hex of
each byte. -/
def bytesHex (bs : List Nat) : String := String.mk ((bs.map byteHexChars).flatten)

/-- Replace every occurrence of `pat` in the remaining input by `rep`;
`skip` counts pattern characters still to be consumed after a match.
Structural-recursion core of the `str.format` substitution below. -/
def substAux (pat rep : List Char) : Nat → List Char → List Char
  | _, [] => []
  | skip+1, _ :: cs => substAux pat rep skip cs
  | 0, c :: cs =>
      if pat.isPrefixOf (c :: cs) then rep ++ substAux pat rep (pat.length - 1) cs
      else c :: substAux pat rep 0 cs

/-- Python `template.format(report_desc_hex=hex)` for a template whose
only placeholder is `{report_desc_hex}`. -/
def pyFormatReportDescHex (template hex : String) : String :=
  String.mk (substAux ("{report_desc_hex}".data) hex.data 0 template.data)

/-- Python `build_sdp_record()`: the SDP template with the hex-encoded combo
report descriptor substituted in. -/
def build_sdp_record : String :=
  pyFormatReportDescHex SDP_RECORD_XML (bytesHex COMBO_REPORT_DESCRIPTOR)

/-- Test of `sub.isPrefixOf` at some suffix of the string: substring containment
test used to state facts about the generated SDP record. -/
def containsChars (sub : List Char) : List Char → Bool
  | [] => sub.isPrefixOf []
  | c :: cs => sub.isPrefixOf (c :: cs) || containsChars sub cs

/-- Substring containment on `String`. -/
def strContains (s sub : String) : Bool := containsChars sub.data s.data

/-! ### `bt_hid.py`: mouse buttons, clamping, errors -/

/-- Python `MouseButton` bitmask values. -/
def MouseButton_NONE : Nat := 0x00

def MouseButton_LEFT : Nat := 0x01

def MouseButton_RIGHT : Nat := 0x02

def MouseButton_MIDDLE : Nat := 0x04

/-- Universe of declared `MouseButton` flag bits; Python `IntFlag`
inversion `~btn` is bounded to this universe. -/
def MouseButton_UNIVERSE : Nat := 0x07

/-- Python `BUTTON_MAP`: button name -> bitmask bit. -/
def BUTTON_MAP : List (String × Nat) := [
  ("left", MouseButton_LEFT),
  ("right", MouseButton_RIGHT),
  ("middle", MouseButton_MIDDLE)]

/-- Exceptions raised by the server:
`BtHidError` carries its message; the codec/argument `ValueError`s are
collapsed to a single constructor (their messages are not load-bearing). -/
inductive PyError : Type
  | btHidError (msg : String)
  | valueError
deriving DecidableEq, Repr

/-- Python `_clamp(value, minimum=-127, maximum=127)`: `max(minimum, min(maximum, value))`. -/
def _clamp (value : Int) (minimum : Int := -127) (maximum : Int := 127) : Int :=
  max minimum (min maximum value)

/-- Python `struct.pack` of one signed byte in two's complement (the argument is
always in `[-128, 127]` at the call sites, after `_clamp`). -/
def signedByte (v : Int) : Nat := (v % 256).toNat

/-- A frame written to a channel (a Python `bytes` value). -/
def Frame : Type := List Nat
deriving DecidableEq, Repr

/-! ### `bt_hid.py`: server state -/

/-- The mutable fields of `BluetoothHidServer` observable in this model.
Socket handles are abstracted to presence booleans: a listening socket
that has been opened, and an accepted peer socket per channel. -/
structure ServerState : Type where
  controlSockOpen : Bool
  interruptSockOpen : Bool
  controlClient : Bool
  interruptClient : Bool
  connected : Bool
  mouseButtons : Nat
  controlTaskRunning : Bool
deriving DecidableEq, Repr

/-- Python `__init__`: no sockets, no clients, not connected, zero held buttons,
no background task. (The delay parameters do not affect the written
frames and are omitted.) -/
def initialServerState : ServerState :=
  { controlSockOpen := false
    interruptSockOpen := false
    controlClient := false
    interruptClient := false
    connected := false
    mouseButtons := 0
    controlTaskRunning := false }

/-- Result of one server operation: the state after the call, the frames
written to the interrupt channel, in order, and the exception raised, if
any. -/
def SendResult : Type := ServerState × List Frame × Option PyError

/-- Python `start()`: opens both L2CAP listening sockets. A bind failure is an
external OS condition and is not modelled; the modelled call succeeds. -/
def start (st : ServerState) : ServerState :=
  { st with controlSockOpen := true, interruptSockOpen := true }

/-- Python `wait_for_connection()`: raises unless both listening sockets exist,
then accepts a peer on each channel, sets the connected flag and starts
the control-channel task. Note that `_mouse_buttons` is not assigned. -/
def wait_for_connection (st : ServerState) : ServerState × Option PyError :=
  if st.controlSockOpen ∧ st.interruptSockOpen then
    ({ st with controlClient := true
               interruptClient := true
               connected := true
               controlTaskRunning := true }, none)
  else (st, some (.btHidError "Server not started"))

/-- Python `stop()`: clears the connected flag, cancels the background task and
closes every non-`None` handle, then nulls all of them. -/
def stop (st : ServerState) : ServerState :=
  { st with connected := false
            controlTaskRunning := false
            interruptClient := false
            controlClient := false
            interruptSockOpen := false
            controlSockOpen := false }

/-! ### `bt_hid.py`: send operations -/

/-- Python `_send_raw(data)`: raises `BtHidError` when no interrupt peer has
been accepted, otherwise writes the frame. (`OSError` on the send —
the peer vanishing mid-write — is external nondeterminism, not
modelled.) -/
def _send_raw (st : ServerState) (data : Frame) : SendResult :=
  if st.interruptClient then (st, [data], none)
  else (st, [], some (.btHidError "No Bluetooth client connected"))

/-- Python `_KB_RELEASE`: 8-byte all-zero keyboard report. -/
def _KB_RELEASE : List Nat := List.replicate 8 0

/-- The frame of `_send_keyboard_report(modifier, scan_code)`. -/
def keyboardReportFrame (modifier scan_code : Nat) : Frame :=
  [0xA1, REPORT_ID_KEYBOARD, modifier, 0x00, scan_code, 0x00, 0x00, 0x00, 0x00, 0x00]

/-- The frame of `_release_keyboard()`: `bytes([0xA1, REPORT_ID_KEYBOARD]) + _KB_RELEASE`. -/
def keyboardReleaseFrame : Frame :=
  [0xA1, REPORT_ID_KEYBOARD] ++ _KB_RELEASE

/-- Python `_tap_key(modifier, scan_code)`: press report, sleep, release report.
The sleep transfers no bytes and is dropped from the model. -/
def _tap_key (st : ServerState) (modifier scan_code : Nat) : SendResult :=
  match _send_raw st (keyboardReportFrame modifier scan_code) with
  | (st1, frames, some e) => (st1, frames, some e)
  | (st1, frames, none) =>
    match _send_raw st1 keyboardReleaseFrame with
    | (st2, frames2, e) => (st2, frames ++ frames2, e)

/-- The modifier/scan-code resolution performed at the top of
`send_keystroke`: shift-characters and single characters go through
`char_to_hid`, anything longer through `key_name_to_hid`. -/
def resolveKeystroke (key : String) : Option (Nat × Nat) :=
  if (alistLookup SHIFT_CHARS key).isSome then char_to_hid key
  else if key.length = 1 then char_to_hid key
  else (key_name_to_hid key).map (fun scan_code => (MODIFIER_NONE, scan_code))

/-- Python `send_keystroke(key)`. -/
def send_keystroke (st : ServerState) (key : String) : SendResult :=
  match resolveKeystroke key with
  | none => (st, [], some .valueError)
  | some (modifier, scan_code) => _tap_key st modifier scan_code

/-- The bitmask/scan-code resolution performed at the top of
`send_key_combo`: the modifier list first, then the key, adding
`MODIFIER_LEFT_SHIFT` for shift-characters. -/
def resolveCombo (modifiers : List String) (key : String) : Option (Nat × Nat) :=
  match modifiers_to_bitmask modifiers with
  | none => none
  | some mod_bitmask =>
    match alistLookup SHIFT_CHARS key with
    | some base_char =>
      (key_name_to_hid base_char).map
        (fun scan_code => (mod_bitmask ||| MODIFIER_LEFT_SHIFT, scan_code))
    | none => (key_name_to_hid key).map (fun scan_code => (mod_bitmask, scan_code))

/-- Python `send_key_combo(modifiers, key)`. -/
def send_key_combo (st : ServerState) (modifiers : List String) (key : String) : SendResult :=
  match resolveCombo modifiers key with
  | none => (st, [], some .valueError)
  | some (modifier, scan_code) => _tap_key st modifier scan_code

/-- The `for char in text` loop of `send_text`: taps each character,
aborting at the first raised exception; the inter-character sleep is
dropped. -/
def sendTextChars (st : ServerState) : List Char → SendResult
  | [] => (st, [], none)
  | c :: cs =>
    match char_to_hid (String.mk [c]) with
    | none => (st, [], some .valueError)
    | some (modifier, scan_code) =>
      match _tap_key st modifier scan_code with
      | (st1, frames, some e) => (st1, frames, some e)
      | (st1, frames, none) =>
        match sendTextChars st1 cs with
        | (st2, frames2, e) => (st2, frames ++ frames2, e)

/-- Python `send_text(text)`. -/
def send_text (st : ServerState) (text : String) : SendResult :=
  sendTextChars st text.data

/-- The frame of `_send_mouse_report(buttons, x, y, wheel)` after
clamping: `struct.pack("BBBbbb", 0xA1, REPORT_ID_MOUSE, buttons, x, y, wheel)`. -/
def mouseReportFrame (buttons : Nat) (x y wheel : Int) : Frame :=
  [0xA1, REPORT_ID_MOUSE, buttons,
   signedByte (_clamp x), signedByte (_clamp y), signedByte (_clamp wheel)]

/-- Python `_send_mouse_report(buttons, x, y, wheel)`. -/
def _send_mouse_report (st : ServerState) (buttons : Nat) (x y wheel : Int) : SendResult :=
  _send_raw st (mouseReportFrame buttons x y wheel)

/-- Python `move(x, y)`: one relative-motion report carrying the held buttons. -/
def move (st : ServerState) (x y : Int) : SendResult :=
  _send_mouse_report st st.mouseButtons x y 0

/-- Python `click(button)`: unknown names raise `ValueError` before any state
change; otherwise set the bit, send, sleep 50 ms (dropped), clear the
bit with the `IntFlag`-bounded complement `~btn`, send again. -/
def click (st : ServerState) (button : String) : SendResult :=
  match alistLookup BUTTON_MAP (strLower button) with
  | none => (st, [], some .valueError)
  | some btn =>
    let st1 : ServerState := { st with mouseButtons := st.mouseButtons ||| btn }
    match _send_mouse_report st1 st1.mouseButtons 0 0 0 with
    | (st2, frames, some e) => (st2, frames, some e)
    | (st2, frames, none) =>
      let st3 : ServerState :=
        { st2 with mouseButtons := st2.mouseButtons &&& (MouseButton_UNIVERSE ^^^ btn) }
      match _send_mouse_report st3 st3.mouseButtons 0 0 0 with
      | (st4, frames2, e) => (st4, frames ++ frames2, e)

/-- Python `scroll(amount)`: one report with only the wheel field set. -/
def scroll (st : ServerState) (amount : Int) : SendResult :=
  _send_mouse_report st st.mouseButtons 0 0 amount

/-! ### `bt_hid.py`: HIDP control channel -/

def _HIDP_HANDSHAKE : Nat := 0x00

def _HIDP_HID_CONTROL : Nat := 0x10

def _HIDP_GET_REPORT : Nat := 0x40

def _HIDP_SET_REPORT : Nat := 0x50

def _HIDP_GET_PROTOCOL : Nat := 0x60

def _HIDP_SET_PROTOCOL : Nat := 0x70

def _HANDSHAKE_SUCCESS : Nat := 0x00

def _HANDSHAKE_NOT_READY : Nat := 0x01

def _HANDSHAKE_ERR_UNSUPPORTED : Nat := 0x05

/-- The replies the body of `_control_channel_loop` sends for one
received message whose first byte is `firstByte`: the `if/elif` chain on
`msg_type = data[0] & 0xF0`.  `HID_CONTROL` and unrecognized types only
log. -/
def hidpReplies (firstByte : Nat) : List Frame :=
  let msg_type := firstByte &&& 0xF0
  if msg_type = _HIDP_SET_PROTOCOL then [[_HANDSHAKE_SUCCESS]]
  else if msg_type = _HIDP_GET_PROTOCOL then [[0x01]]
  else if msg_type = _HIDP_SET_REPORT then [[_HANDSHAKE_SUCCESS]]
  else []

/-- Python `_control_channel_loop()` over a finite schedule of `sock_recv`
results (the schedule ends when the connected flag drops or a read
fails): each non-empty message is answered by `hidpReplies` of its first
byte before the next read; a zero-length read means the peer closed the
channel and exits the loop.  The Python body is wrapped in
`try/except Exception`, so the loop never raises out of the task; the
model is correspondingly total. -/
def _control_channel_loop : List Frame → List Frame
  | [] => []
  | ([] : List Nat) :: _ => []
  | (firstByte :: _) :: msgs => hidpReplies firstByte ++ _control_channel_loop msgs

/-! ### `bt_hid.py`: the order of teardown actions in `stop()` -/

/-- The four socket handles owned by the server, named by field. -/
inductive SockHandle : Type
  | interruptClientSock
  | controlClientSock
  | interruptListenSock
  | controlListenSock
deriving DecidableEq, Repr

/-- One observable action of `stop()`.  `awaitControlTask` would be an
`await` of the cancelled task's termination; it is part of the event
alphabet so that its absence from the trace is expressible. -/
inductive StopEvent : Type
  | setDisconnected
  | cancelControlTask
  | awaitControlTask
  | closeSock (h : SockHandle)
deriving DecidableEq, Repr

/-- The sequence of actions `stop()` performs, read off its body:
`self._connected = False`; cancel the control task if there is one; then
close each non-`None` handle in the order interrupt peer, control peer,
interrupt listener, control listener.  The body contains no `await`. -/
def stopEvents (st : ServerState) : List StopEvent :=
  [StopEvent.setDisconnected]
  ++ (if st.controlTaskRunning then [StopEvent.cancelControlTask] else [])
  ++ (if st.interruptClient then [StopEvent.closeSock .interruptClientSock] else [])
  ++ (if st.controlClient then [StopEvent.closeSock .controlClientSock] else [])
  ++ (if st.interruptSockOpen then [StopEvent.closeSock .interruptListenSock] else [])
  ++ (if st.controlSockOpen then [StopEvent.closeSock .controlListenSock] else [])

/-- A fully-connected state, as produced by `start` then
`wait_for_connection` from a fresh server. -/
def connectedState : ServerState :=
  (wait_for_connection (start initialServerState)).1

example : connectedState =
    { controlSockOpen := true, interruptSockOpen := true, controlClient := true,
      interruptClient := true, connected := true, mouseButtons := 0,
      controlTaskRunning := true } := by decide

/-! ### Theorems -/

/-- The accumulator loop of `modifiers_to_bitmask` ORs each recognized
modifier into the accumulator and aborts on the first unknown name. -/
theorem modifiersFold_spec (names : List String) (acc : Nat) :
    modifiersFold names acc =
      if names.all (fun m => (alistLookup MODIFIER_MAP (strLower m)).isSome)
      then some (names.foldl
        (fun a m => a ||| (alistLookup MODIFIER_MAP (strLower m)).getD 0) acc)
      else none := by
  induction names generalizing acc with
  | nil => simp [modifiersFold]
  | cons m ms ih =>
    cases h : alistLookup MODIFIER_MAP (strLower m) with
    | none => simp [modifiersFold, h]
    | some v => simp [modifiersFold, h, ih]

/-- C6: `modifiers_to_bitmask` returns the bitwise OR of the bitmask
constants of its elements — `["ctrl","shift"]` gives
`MODIFIER_LEFT_CTRL ||| MODIFIER_LEFT_SHIFT` and `[]` gives 0 — and when
any name is unrecognized the whole call fails with no partial bitmask. -/
theorem C6_modifiers_to_bitmask_or :
    modifiers_to_bitmask ["ctrl", "shift"] = some (MODIFIER_LEFT_CTRL ||| MODIFIER_LEFT_SHIFT)
    ∧ modifiers_to_bitmask [] = some 0
    ∧ ∀ names : List String,
        modifiers_to_bitmask names =
          if names.all (fun m => (alistLookup MODIFIER_MAP (strLower m)).isSome)
          then some (names.foldl
            (fun acc m => acc ||| (alistLookup MODIFIER_MAP (strLower m)).getD 0) 0)
          else none := by
  refine ⟨by decide, by decide, fun names => ?_⟩
  simpa [modifiers_to_bitmask, MODIFIER_NONE] using modifiersFold_spec names MODIFIER_NONE

/-- The 26 uppercase/lowercase spellings of each alphabetic key name. -/
def letterCasePairs : List (String × String) := [
  ("A", "a"), ("B", "b"), ("C", "c"), ("D", "d"), ("E", "e"), ("F", "f"),
  ("G", "g"), ("H", "h"), ("I", "i"), ("J", "j"), ("K", "k"), ("L", "l"),
  ("M", "m"), ("N", "n"), ("O", "o"), ("P", "p"), ("Q", "q"), ("R", "r"),
  ("S", "s"), ("T", "t"), ("U", "u"), ("V", "v"), ("W", "w"), ("X", "x"),
  ("Y", "y"), ("Z", "z")]

/-- C7: `key_name_to_hid` looks names up case-sensitively first and falls
back to a case-insensitive lookup only for single-character names:
"Enter" gives 0x28 while "enter" fails; for names of length ≠ 1 the
result is exactly the case-sensitive table lookup (so only the exact
spelling succeeds); both cases of every single alphabetic character
resolve to the same scan code; and every name — of any length — found
neither by the exact lookup nor by the lower-cased lookup fails. -/
theorem C7_key_name_to_hid_case :
    key_name_to_hid "Enter" = some 0x28
    ∧ key_name_to_hid "enter" = none
    ∧ key_name_to_hid "A" = some 0x04
    ∧ key_name_to_hid "a" = some 0x04
    ∧ (∀ key : String, key.length ≠ 1 → key_name_to_hid key = alistLookup KEY_CODES key)
    ∧ (∀ p ∈ letterCasePairs,
        key_name_to_hid p.1 = key_name_to_hid p.2 ∧ (key_name_to_hid p.2).isSome = true)
    ∧ ∀ key : String, alistLookup KEY_CODES key = none →
        alistLookup KEY_CODES (strLower key) = none →
        key_name_to_hid key = none := by
  refine ⟨by decide, by decide, by decide, by decide, fun key h => ?_, by decide,
    fun key h1 h2 => ?_⟩
  · cases hk : alistLookup KEY_CODES key with
    | some code => simp [key_name_to_hid, hk]
    | none => simp [key_name_to_hid, hk, h]
  · simp [key_name_to_hid, h1, h2]

/-- C7 witness: the general clauses at "Hm" (length 2), at ("Q", "q"),
and at "!" (a single character found by neither lookup). -/
theorem C7_key_name_to_hid_case_witness :
    key_name_to_hid "Hm" = alistLookup KEY_CODES "Hm"
    ∧ key_name_to_hid "Q" = key_name_to_hid "q"
    ∧ key_name_to_hid "!" = none :=
  ⟨C7_key_name_to_hid_case.2.2.2.2.1 "Hm" (by decide),
   (C7_key_name_to_hid_case.2.2.2.2.2.1 ("Q", "q") (by decide)).1,
   C7_key_name_to_hid_case.2.2.2.2.2.2 "!" (by decide) (by decide)⟩

/-- C1: the control-channel loop answers each received message exactly
per the HIDP table — SET_PROTOCOL (high nibble 0x70) with the single
byte 0x00, GET_PROTOCOL (0x60) with 0x01, SET_REPORT (0x50) with 0x00,
and HID_CONTROL (0x10) or any unrecognized type with nothing — and the
reply of a message is emitted before the remaining messages are
processed.  (The loop body is wrapped in `except Exception`, so it is
total: the model raises on no byte sequence.) -/
theorem C1_control_channel_replies :
    (∀ (firstByte : Nat) (rest : List Nat) (msgs : List Frame),
        _control_channel_loop ((firstByte :: rest) :: msgs)
          = hidpReplies firstByte ++ _control_channel_loop msgs)
    ∧ (∀ b : Nat, b &&& 0xF0 = _HIDP_SET_PROTOCOL → hidpReplies b = [[0x00]])
    ∧ (∀ b : Nat, b &&& 0xF0 = _HIDP_GET_PROTOCOL → hidpReplies b = [[0x01]])
    ∧ (∀ b : Nat, b &&& 0xF0 = _HIDP_SET_REPORT → hidpReplies b = [[0x00]])
    ∧ (∀ b : Nat, b &&& 0xF0 = _HIDP_HID_CONTROL → hidpReplies b = [])
    ∧ (∀ b : Nat, b &&& 0xF0 ≠ _HIDP_SET_PROTOCOL → b &&& 0xF0 ≠ _HIDP_GET_PROTOCOL →
        b &&& 0xF0 ≠ _HIDP_SET_REPORT → hidpReplies b = []) := by
  refine ⟨fun _ _ _ => rfl, fun b h => ?_, fun b h => ?_, fun b h => ?_, fun b h => ?_,
    fun b h1 h2 h3 => ?_⟩ <;>
    simp_all [hidpReplies, _HANDSHAKE_SUCCESS, _HIDP_SET_PROTOCOL, _HIDP_GET_PROTOCOL,
      _HIDP_SET_REPORT, _HIDP_HID_CONTROL]

/-- C1 witness: a SET_PROTOCOL(Report) message 0x71 followed by a
GET_PROTOCOL message, and each table row at a concrete first byte. -/
theorem C1_control_channel_replies_witness :
    _control_channel_loop [[0x71], [0x60]] = hidpReplies 0x71 ++ _control_channel_loop [[0x60]]
    ∧ hidpReplies 0x71 = [[0x00]]
    ∧ hidpReplies 0x60 = [[0x01]]
    ∧ hidpReplies 0x53 = [[0x00]]
    ∧ hidpReplies 0x13 = []
    ∧ hidpReplies 0x42 = [] :=
  ⟨C1_control_channel_replies.1 0x71 [] [[0x60]],
   C1_control_channel_replies.2.1 0x71 (by decide),
   C1_control_channel_replies.2.2.1 0x60 (by decide),
   C1_control_channel_replies.2.2.2.1 0x53 (by decide),
   C1_control_channel_replies.2.2.2.2.1 0x13 (by decide),
   C1_control_channel_replies.2.2.2.2.2 0x42 (by decide) (by decide) (by decide)⟩

/-- C2: with an interrupt peer accepted, `send_keystroke("Enter")`
writes exactly the press frame `A1 01 00 00 28 00 00 00 00 00` followed
by the all-zero release frame `A1 01 00 ... 00`; and every successful
keystroke writes a press report followed by the all-zero release
report. -/
theorem C2_send_keystroke_enter :
    (∀ st : ServerState, st.interruptClient = true →
      send_keystroke st "Enter" =
        (st, [[0xA1, 0x01, 0x00, 0x00, 0x28, 0x00, 0x00, 0x00, 0x00, 0x00],
              [0xA1, 0x01, 0x00, 0x00, 0x00, 0x00, 0x00, 0x00, 0x00, 0x00]], none))
    ∧ ∀ (st st' : ServerState) (key : String) (frames : List Frame),
        send_keystroke st key = (st', frames, none) →
        ∃ modifier scan_code,
          frames = [keyboardReportFrame modifier scan_code, keyboardReleaseFrame] := by
  constructor
  · intro st h
    have hres : resolveKeystroke "Enter" = some (MODIFIER_NONE, 0x28) := by decide
    simp [send_keystroke, hres, _tap_key, _send_raw, h, keyboardReportFrame,
      keyboardReleaseFrame, _KB_RELEASE, REPORT_ID_KEYBOARD, MODIFIER_NONE,
      List.replicate]
  · intro st st' key frames h
    unfold send_keystroke at h
    cases hr : resolveKeystroke key with
    | none =>
      rw [hr] at h
      exact absurd (congrArg (fun r : SendResult => r.2.2) h) (by simp)
    | some p =>
      obtain ⟨m, sc⟩ := p
      rw [hr] at h
      unfold _tap_key _send_raw at h
      dsimp only at h
      by_cases hc : st.interruptClient = true
      · rw [if_pos hc] at h
        dsimp only at h
        rw [if_pos hc] at h
        dsimp only at h
        exact ⟨m, sc, (congrArg (fun r : SendResult => r.2.1) h).symm⟩
      · rw [if_neg hc] at h
        dsimp only at h
        exact absurd (congrArg (fun r : SendResult => r.2.2) h) (by simp)

/-- C2 witness: the concrete clause at the connected state, and the
general clause at that state with key "Enter". -/
theorem C2_send_keystroke_enter_witness :
    send_keystroke connectedState "Enter" =
      (connectedState, [[0xA1, 0x01, 0x00, 0x00, 0x28, 0x00, 0x00, 0x00, 0x00, 0x00],
        [0xA1, 0x01, 0x00, 0x00, 0x00, 0x00, 0x00, 0x00, 0x00, 0x00]], none)
    ∧ ∃ modifier scan_code,
        ([[0xA1, 0x01, 0x00, 0x00, 0x28, 0x00, 0x00, 0x00, 0x00, 0x00],
          [0xA1, 0x01, 0x00, 0x00, 0x00, 0x00, 0x00, 0x00, 0x00, 0x00]] : List Frame)
          = [keyboardReportFrame modifier scan_code, keyboardReleaseFrame] :=
  ⟨C2_send_keystroke_enter.1 connectedState (by decide),
   C2_send_keystroke_enter.2 connectedState connectedState "Enter" _
     (C2_send_keystroke_enter.1 connectedState (by decide))⟩

/-- C3: the mouse report's x, y and wheel fields are clamped to
[-127, 127] — saturated at the bounds, never wrapped modulo 256 and
never rejected: within the range `_clamp` is the identity, outside it
returns the nearest bound, and every `_send_mouse_report` on a connected
server succeeds and encodes exactly the clamped values; in particular
`move(200, -200)` writes a report with x byte 0x7F and y byte 0x81. -/
theorem C3_mouse_clamp_saturates :
    (∀ v : Int, -127 ≤ _clamp v ∧ _clamp v ≤ 127)
    ∧ (∀ v : Int, -127 ≤ v → v ≤ 127 → _clamp v = v)
    ∧ (∀ v : Int, 127 < v → _clamp v = 127)
    ∧ (∀ v : Int, v < -127 → _clamp v = -127)
    ∧ (∀ (st : ServerState) (buttons : Nat) (x y wheel : Int), st.interruptClient = true →
        _send_mouse_report st buttons x y wheel =
          (st, [[0xA1, 0x02, buttons,
                 signedByte (_clamp x), signedByte (_clamp y), signedByte (_clamp wheel)]], none))
    ∧ (∀ st : ServerState, st.interruptClient = true →
        move st 200 (-200) = (st, [[0xA1, 0x02, st.mouseButtons, 0x7F, 0x81, 0x00]], none)) := by
  have hx : signedByte (_clamp 200) = 0x7F := by decide
  have hy : signedByte (_clamp (-200)) = 0x81 := by decide
  have hw : signedByte (_clamp 0) = 0x00 := by decide
  refine ⟨fun v => ⟨?_, ?_⟩, fun v h1 h2 => ?_, fun v h => ?_, fun v h => ?_,
    fun st buttons x y wheel h => ?_, fun st h => ?_⟩
  · simp only [_clamp]; omega
  · simp only [_clamp]; omega
  · simp only [_clamp]; omega
  · simp only [_clamp]; omega
  · simp only [_clamp]; omega
  · simp [_send_mouse_report, _send_raw, mouseReportFrame, REPORT_ID_MOUSE, h]
  · simp [move, _send_mouse_report, _send_raw, mouseReportFrame, REPORT_ID_MOUSE, h, hx, hy, hw]

/-- C3 witness: the general clauses at concrete values. -/
theorem C3_mouse_clamp_saturates_witness :
    (-127 ≤ _clamp 300 ∧ _clamp 300 ≤ 127)
    ∧ _clamp 55 = 55
    ∧ _clamp 300 = 127
    ∧ _clamp (-300) = -127
    ∧ _send_mouse_report connectedState 0 300 (-300) 5 =
        (connectedState, [[0xA1, 0x02, 0,
          signedByte (_clamp 300), signedByte (_clamp (-300)), signedByte (_clamp 5)]], none)
    ∧ move connectedState 200 (-200) =
        (connectedState, [[0xA1, 0x02, connectedState.mouseButtons, 0x7F, 0x81, 0x00]], none) :=
  ⟨C3_mouse_clamp_saturates.1 300,
   C3_mouse_clamp_saturates.2.1 55 (by decide) (by decide),
   C3_mouse_clamp_saturates.2.2.1 300 (by decide),
   C3_mouse_clamp_saturates.2.2.2.1 (-300) (by decide),
   C3_mouse_clamp_saturates.2.2.2.2.1 connectedState 0 300 (-300) 5 (by decide),
   C3_mouse_clamp_saturates.2.2.2.2.2 connectedState (by decide)⟩

/-- C4: with an interrupt peer accepted and no button held,
`click("left")` writes exactly a press report with buttons byte 0x01
followed by a release report with buttons byte 0x00; and for every
button name whose lower-cased form is not in `BUTTON_MAP`, `click`
raises `ValueError` with no report written and the state unchanged. -/
theorem C4_click_press_release :
    (∀ st : ServerState, st.interruptClient = true → st.mouseButtons = 0 →
      click st "left" =
        (st, [[0xA1, 0x02, 0x01, 0x00, 0x00, 0x00],
              [0xA1, 0x02, 0x00, 0x00, 0x00, 0x00]], none))
    ∧ ∀ (st : ServerState) (button : String),
        alistLookup BUTTON_MAP (strLower button) = none →
        click st button = (st, [], some PyError.valueError) := by
  constructor
  · intro st h hb
    have hlk : alistLookup BUTTON_MAP (strLower "left") = some MouseButton_LEFT := by decide
    have hz : signedByte (_clamp 0) = 0x00 := by decide
    have b1 : (0 : Nat) ||| MouseButton_LEFT = 1 := by decide
    have b2 : (1 : Nat) &&& (MouseButton_UNIVERSE ^^^ MouseButton_LEFT) = 0 := by decide
    obtain ⟨f1, f2, f3, f4, f5, mb, f7⟩ := st
    simp only at h hb
    subst h hb
    simp [click, hlk, _send_mouse_report, _send_raw, mouseReportFrame,
      REPORT_ID_MOUSE, hz, b1, b2]
  · intro st button h
    simp [click, h]

/-- C4 witness: both clauses at the connected state, with the invalid
name "banana". -/
theorem C4_click_press_release_witness :
    click connectedState "left" =
      (connectedState, [[0xA1, 0x02, 0x01, 0x00, 0x00, 0x00],
        [0xA1, 0x02, 0x00, 0x00, 0x00, 0x00]], none)
    ∧ click connectedState "banana" = (connectedState, [], some PyError.valueError) :=
  ⟨C4_click_press_release.1 connectedState (by decide) (by decide),
   C4_click_press_release.2 connectedState "banana" (by decide)⟩

set_option maxRecDepth 100000 in
set_option maxHeartbeats 1000000 in
/-- C5: `build_sdp_record()` is the SDP XML template with the
hex-encoded report descriptor substituted for the placeholder, and the
resulting record carries the host-compatibility fields bit-exactly:
Service Class UUID 0x1124, HID Profile version 0x0101 in the
BluetoothProfileDescriptorList, HIDBootDevice true, HIDVirtualCable
true, HIDReconnectInitiate true, and HIDDeviceSubclass 0xC0. -/
theorem C5_build_sdp_record_fields :
    build_sdp_record = pyFormatReportDescHex SDP_RECORD_XML (bytesHex COMBO_REPORT_DESCRIPTOR)
    ∧ strContains build_sdp_record
        "<uuid value=\"0x1124\" /> <!-- HumanInterfaceDeviceService -->" = true
    ∧ strContains build_sdp_record
        "<uuid value=\"0x1124\" /> <!-- HumanInterfaceDeviceService -->\n        <uint16 value=\"0x0101\" /> <!-- Version 1.1 -->" = true
    ∧ strContains build_sdp_record
        "<attribute id=\"0x020E\"> <!-- HIDBootDevice -->\n    <boolean value=\"true\" />" = true
    ∧ strContains build_sdp_record
        "<attribute id=\"0x0204\"> <!-- HIDVirtualCable -->\n    <boolean value=\"true\" />" = true
    ∧ strContains build_sdp_record
        "<attribute id=\"0x0205\"> <!-- HIDReconnectInitiate -->\n    <boolean value=\"true\" />" = true
    ∧ strContains build_sdp_record
        "<attribute id=\"0x0202\"> <!-- HIDDeviceSubclass -->\n    <uint8 value=\"0xC0\" />" = true
    ∧ strContains build_sdp_record
        ("<text encoding=\"hex\" value=\"" ++ bytesHex COMBO_REPORT_DESCRIPTOR ++ "\" />") = true
    ∧ strContains build_sdp_record "{report_desc_hex}" = false :=
  ⟨rfl, by decide, by decide, by decide, by decide, by decide, by decide, by decide, by decide⟩

/-- C8 counterexample: the held-button bitmask is NOT reset when
`wait_for_connection()` completes.  Concretely: from a fresh server,
`start()`, then `click("left")` (which sets the bit before its send
raises `BtHidError` — no peer yet), then `wait_for_connection()`
completes with the held-button state still 1, not 0. -/
theorem C8_reconnect_counterexample :
    (click (start initialServerState) "left").2.2
        = some (PyError.btHidError "No Bluetooth client connected")
    ∧ (wait_for_connection (click (start initialServerState) "left").1).2 = none
    ∧ (wait_for_connection (click (start initialServerState) "left").1).1.mouseButtons = 1 := by
  decide

/-- C8 amended: the held-button bitmask is zero at construction, and
`wait_for_connection()` preserves it unchanged (no reset at reconnect);
`stop()` does not touch it either. -/
theorem C8_buttons_not_reset_on_reconnect :
    initialServerState.mouseButtons = 0
    ∧ (∀ st : ServerState, (wait_for_connection st).1.mouseButtons = st.mouseButtons)
    ∧ (∀ st : ServerState, (stop st).mouseButtons = st.mouseButtons) := by
  refine ⟨rfl, fun st => ?_, fun st => rfl⟩
  unfold wait_for_connection
  split <;> rfl

/-- C9 counterexample: `stop()` does not await the control-channel
task's termination: at the connected state the task is running and
`stop()`'s action sequence contains socket closes but no await of the
cancelled task. -/
theorem C9_stop_no_await_counterexample :
    connectedState.controlTaskRunning = true
    ∧ StopEvent.closeSock SockHandle.interruptClientSock ∈ stopEvents connectedState
    ∧ StopEvent.awaitControlTask ∉ stopEvents connectedState := by
  decide

/-- Membership in an if-then-else of a singleton close event yields a
close event. -/
theorem mem_ite_closeSock {e : StopEvent} {c : Prop} [Decidable c] {s : SockHandle}
    (h : e ∈ if c then [StopEvent.closeSock s] else []) :
    ∃ t : SockHandle, e = StopEvent.closeSock t := by
  split at h
  · exact ⟨s, List.mem_singleton.1 h⟩
  · exact absurd h (List.not_mem_nil e)

/-- Python `stop()` performs no await of the cancelled task, whatever the
state. -/
theorem await_not_mem_stopEvents (st : ServerState) :
    StopEvent.awaitControlTask ∉ stopEvents st := by
  obtain ⟨a, b, c, d, e, f, g⟩ := st
  cases a <;> cases b <;> cases c <;> cases d <;> cases g <;> simp [stopEvents]

/-- C9 amended: whenever the control-channel task is running, `stop()`
issues the disconnect flag, then the cancellation of the task, and only
then the socket closes — every later event is a close — but it never
awaits the cancelled task's termination. -/
theorem C9_stop_cancels_before_close (st : ServerState)
    (h : st.controlTaskRunning = true) :
    ∃ closes : List StopEvent,
      stopEvents st = [StopEvent.setDisconnected, StopEvent.cancelControlTask] ++ closes
      ∧ (∀ e ∈ closes, ∃ t : SockHandle, e = StopEvent.closeSock t)
      ∧ StopEvent.awaitControlTask ∉ stopEvents st := by
  refine ⟨(if st.interruptClient then [StopEvent.closeSock .interruptClientSock] else [])
      ++ ((if st.controlClient then [StopEvent.closeSock .controlClientSock] else [])
      ++ ((if st.interruptSockOpen then [StopEvent.closeSock .interruptListenSock] else [])
      ++ (if st.controlSockOpen then [StopEvent.closeSock .controlListenSock] else []))), ?_, ?_, ?_⟩
  · simp [stopEvents, h]
  · intro e he
    rcases List.mem_append.1 he with h1 | h1
    · exact mem_ite_closeSock h1
    rcases List.mem_append.1 h1 with h2 | h2
    · exact mem_ite_closeSock h2
    rcases List.mem_append.1 h2 with h3 | h3
    · exact mem_ite_closeSock h3
    · exact mem_ite_closeSock h3
  · exact await_not_mem_stopEvents st

/-- C9 amended witness: the cancel-before-close decomposition at the
connected state. -/
theorem C9_stop_cancels_before_close_witness :
    ∃ closes : List StopEvent,
      stopEvents connectedState
          = [StopEvent.setDisconnected, StopEvent.cancelControlTask] ++ closes
        ∧ (∀ e ∈ closes, ∃ t : SockHandle, e = StopEvent.closeSock t)
        ∧ StopEvent.awaitControlTask ∉ stopEvents connectedState :=
  C9_stop_cancels_before_close connectedState (by decide)

/-- C10: while no interrupt-channel peer has been accepted, every send
operation with codec-valid arguments raises
`BtHidError("No Bluetooth client connected")` and writes no frame:
keystrokes, key combos, non-empty text, moves, clicks of known buttons
and scrolls.  (A failed `click` still sets the pressed bit before its
send raises, exactly as the source does.) -/
theorem C10_no_client_raises (st : ServerState) (h : st.interruptClient = false) :
    (∀ (key : String) (p : Nat × Nat), resolveKeystroke key = some p →
        send_keystroke st key
          = (st, [], some (PyError.btHidError "No Bluetooth client connected")))
    ∧ (∀ (modifiers : List String) (key : String) (p : Nat × Nat),
        resolveCombo modifiers key = some p →
        send_key_combo st modifiers key
          = (st, [], some (PyError.btHidError "No Bluetooth client connected")))
    ∧ (∀ text : String, text ≠ "" →
        (∀ c ∈ text.data, (char_to_hid (String.mk [c])).isSome = true) →
        send_text st text
          = (st, [], some (PyError.btHidError "No Bluetooth client connected")))
    ∧ (∀ x y : Int, move st x y
          = (st, [], some (PyError.btHidError "No Bluetooth client connected")))
    ∧ (∀ (button : String) (btn : Nat), alistLookup BUTTON_MAP (strLower button) = some btn →
        click st button
          = ({ st with mouseButtons := st.mouseButtons ||| btn }, [],
              some (PyError.btHidError "No Bluetooth client connected")))
    ∧ (∀ amount : Int, scroll st amount
          = (st, [], some (PyError.btHidError "No Bluetooth client connected"))) := by
  have hraw : ∀ data : Frame, _send_raw st data
      = (st, [], some (PyError.btHidError "No Bluetooth client connected")) := by
    intro data
    simp [_send_raw, h]
  refine ⟨fun key p hp => ?_, fun modifiers key p hp => ?_, fun text ht hc => ?_,
    fun x y => ?_, fun button btn hb => ?_, fun amount => ?_⟩
  · obtain ⟨m, sc⟩ := p
    simp [send_keystroke, hp, _tap_key, hraw]
  · obtain ⟨m, sc⟩ := p
    simp [send_key_combo, hp, _tap_key, hraw]
  · have hd : text.data ≠ [] := fun hnil => ht (by
      cases text with
      | mk l => simp at hnil; simp [hnil])
    cases hdata : text.data with
    | nil => exact absurd hdata hd
    | cons c cs =>
      have hc1 : (char_to_hid (String.mk [c])).isSome = true := hc c (hdata ▸ List.mem_cons_self c cs)
      obtain ⟨q, hq⟩ := Option.isSome_iff_exists.1 hc1
      obtain ⟨m, sc⟩ := q
      simp [send_text, hdata, sendTextChars, hq, _tap_key, hraw]
  · simp [move, _send_mouse_report, hraw]
  · simp [click, hb, _send_mouse_report, _send_raw, h]
  · simp [scroll, _send_mouse_report, hraw]

/-- C10 witness: each clause at the freshly constructed server (no peer
accepted) with concrete codec-valid arguments. -/
theorem C10_no_client_raises_witness :
    send_keystroke initialServerState "Enter"
      = (initialServerState, [], some (PyError.btHidError "No Bluetooth client connected"))
    ∧ send_key_combo initialServerState ["ctrl"] "c"
      = (initialServerState, [], some (PyError.btHidError "No Bluetooth client connected"))
    ∧ send_text initialServerState "hi"
      = (initialServerState, [], some (PyError.btHidError "No Bluetooth client connected"))
    ∧ move initialServerState 10 (-5)
      = (initialServerState, [], some (PyError.btHidError "No Bluetooth client connected"))
    ∧ click initialServerState "left"
      = ({ initialServerState with mouseButtons := initialServerState.mouseButtons ||| 1 }, [],
          some (PyError.btHidError "No Bluetooth client connected"))
    ∧ scroll initialServerState 3
      = (initialServerState, [], some (PyError.btHidError "No Bluetooth client connected")) :=
  ⟨(C10_no_client_raises initialServerState rfl).1 "Enter" (MODIFIER_NONE, 0x28) (by decide),
   (C10_no_client_raises initialServerState rfl).2.1 ["ctrl"] "c" (MODIFIER_LEFT_CTRL, 0x06)
     (by decide),
   (C10_no_client_raises initialServerState rfl).2.2.1 "hi" (by decide) (by decide),
   (C10_no_client_raises initialServerState rfl).2.2.2.1 10 (-5),
   (C10_no_client_raises initialServerState rfl).2.2.2.2.1 "left" 1 (by decide),
   (C10_no_client_raises initialServerState rfl).2.2.2.2.2 3⟩
